import Mathlib

/-!
Shallow embedding of the planet cluster health agent, translated from the Go
sources: lib/agent/server.go (status aggregation), lib/agent/proto/agentpb/status.go
(text encoding of the status enums), the sqlite status store backend and the
in-memory status cache.
-/

namespace Planet

/-- Modelled from the spec: the generated protobuf file defining enum
SystemStatus_Type is not part of the sources; its value set {unknown, running,
degraded} is taken from spec section 3 and from the switch cases of
lib/agent/proto/agentpb/status.go and lib/agent/server.go. -/
inductive SystemStatusType
  | unknown
  | running
  | degraded
  deriving DecidableEq, Repr, Fintype

/-- Modelled from the spec: enum NodeStatus_Type with value set
{unknown, running, degraded} (spec section 3; switch cases in status.go). -/
inductive NodeStatusType
  | unknown
  | running
  | degraded
  deriving DecidableEq, Repr, Fintype

/-- Modelled from the spec: enum MemberStatus_Type with value set
{none, alive, leaving, left, failed} (spec section 3; switch cases in status.go). -/
inductive MemberStatusType
  | none
  | alive
  | leaving
  | left
  | failed
  deriving DecidableEq, Repr, Fintype

/-- Modelled from the spec: enum Probe_Type with value set
{unknown, running, failed, terminated} (spec section 3; switch cases in status.go). -/
inductive ProbeType
  | unknown
  | running
  | failed
  | terminated
  deriving DecidableEq, Repr, Fintype

/-- MemberStatus message: serf member data as used by the aggregator.
Tags is a string map, modelled as an association list with unique keys. -/
structure MemberStatus where
  name : String
  status : MemberStatusType
  tags : List (String × String)
  deriving DecidableEq, Repr

/-- Probe message of the agent generation of the protocol. -/
structure Probe where
  checker : String
  status : ProbeType
  error : String
  extra : String
  deriving DecidableEq, Repr

/-- NodeStatus message as consumed by the aggregator and the cache. -/
structure NodeStatus where
  name : String
  status : NodeStatusType
  memberStatus : MemberStatus
  probes : List Probe
  deriving DecidableEq, Repr

/-- SystemStatus message: overall verdict plus the per-node statuses. -/
structure SystemStatus where
  status : SystemStatusType
  nodes : List NodeStatus
  deriving DecidableEq, Repr

/-- StatusResponse message: the system status plus a human-readable summary. -/
structure StatusResponse where
  status : SystemStatus
  summary : String
  deriving DecidableEq, Repr

/-- errNoMaster from lib/agent/server.go. -/
def errNoMaster : String := "master node unavailable"

/-- isMaster from lib/agent/server.go: value, ok lookup of the role tag
followed by comparison with the master role. -/
def isMaster (member : MemberStatus) : Bool :=
  match member.tags.lookup "role" with
  | some value => value == "master"
  | Option.none => false

/-- nodeToSystemStatus from lib/agent/server.go. -/
def nodeToSystemStatus : NodeStatusType → SystemStatusType
  | NodeStatusType.running => SystemStatusType.running
  | NodeStatusType.degraded => SystemStatusType.degraded
  | _ => SystemStatusType.unknown

/-- The body of the for loop of setSystemStatus in lib/agent/server.go,
threading the foundMaster flag and the accumulated system status through the
list of node statuses in input order. -/
def statusLoop : List NodeStatus → Bool → SystemStatusType → Bool × SystemStatusType
  | [], foundMaster, status => (foundMaster, status)
  | node :: rest, foundMaster, status =>
    let fm := if !foundMaster && isMaster node.memberStatus then true else foundMaster
    let st1 := if status = SystemStatusType.running then nodeToSystemStatus node.status else status
    let st2 := if node.memberStatus.status = MemberStatusType.failed then SystemStatusType.degraded else st1
    statusLoop rest fm st2

/-- setSystemStatus from lib/agent/server.go: fold the per-node statuses into
the system status, then force degraded with the errNoMaster summary when no
master member was seen. -/
def setSystemStatus (resp : StatusResponse) : StatusResponse :=
  let r := statusLoop resp.status.nodes false SystemStatusType.running
  if r.1 then
    { resp with status := { resp.status with status := r.2 } }
  else
    { resp with
        status := { resp.status with status := SystemStatusType.degraded },
        summary := errNoMaster }

/-- The foundMaster flag computed by the loop is the disjunction of the
incoming flag with the isMaster test over all nodes. -/
theorem statusLoop_foundMaster (nodes : List NodeStatus) (fm : Bool) (st : SystemStatusType) :
    (statusLoop nodes fm st).1 = (fm || nodes.any fun n => isMaster n.memberStatus) := by
  induction nodes generalizing fm st with
  | nil => simp [statusLoop]
  | cons n rest ih =>
    simp only [statusLoop, List.any_cons]
    rw [ih]
    cases hIm : isMaster n.memberStatus
    · cases fm <;> simp [hIm]
    · cases fm <;> simp [hIm]

/-- Degraded is absorbing inside the loop: once reached it is never replaced. -/
theorem statusLoop_degraded (nodes : List NodeStatus) (fm : Bool) :
    (statusLoop nodes fm SystemStatusType.degraded).2 = SystemStatusType.degraded := by
  induction nodes generalizing fm with
  | nil => rfl
  | cons n rest ih =>
    simp only [statusLoop]
    split <;> simp [ih]

/-- A failed member anywhere in the list drives the loop status to degraded. -/
theorem statusLoop_failed_member (nodes : List NodeStatus) (fm : Bool) (st : SystemStatusType)
    (n : NodeStatus) (hn : n ∈ nodes) (hf : n.memberStatus.status = MemberStatusType.failed) :
    (statusLoop nodes fm st).2 = SystemStatusType.degraded := by
  induction nodes generalizing fm st with
  | nil => cases hn
  | cons m rest ih =>
    rcases List.mem_cons.mp hn with h | h
    · subst h
      simp [statusLoop, hf, statusLoop_degraded]
    · exact ih _ _ h

/-- Claim C1: for every list of node statuses given to the aggregator, if no
node in the list has member tag role equal to master, then the resulting
system status is degraded and the summary is exactly master node unavailable. -/
theorem setSystemStatus_no_master (resp : StatusResponse)
    (h : ∀ n ∈ resp.status.nodes, isMaster n.memberStatus = false) :
    (setSystemStatus resp).status.status = SystemStatusType.degraded ∧
    (setSystemStatus resp).summary = errNoMaster := by
  have hfm : (statusLoop resp.status.nodes false SystemStatusType.running).1 = false := by
    rw [statusLoop_foundMaster]
    simpa using h
  simp only [setSystemStatus, hfm]
  simp

/-- Witness for C1: a two-node cluster where both members carry the node role. -/
theorem setSystemStatus_no_master_witness :
    (setSystemStatus
      { status :=
          { status := SystemStatusType.unknown,
            nodes :=
              [ { name := "foo", status := NodeStatusType.running,
                  memberStatus :=
                    { name := "foo", status := MemberStatusType.alive,
                      tags := [("role", "node")] },
                  probes := [] },
                { name := "bar", status := NodeStatusType.running,
                  memberStatus :=
                    { name := "bar", status := MemberStatusType.alive,
                      tags := [("role", "node")] },
                  probes := [] } ] },
        summary := "" }).status.status = SystemStatusType.degraded ∧
    (setSystemStatus
      { status :=
          { status := SystemStatusType.unknown,
            nodes :=
              [ { name := "foo", status := NodeStatusType.running,
                  memberStatus :=
                    { name := "foo", status := MemberStatusType.alive,
                      tags := [("role", "node")] },
                  probes := [] },
                { name := "bar", status := NodeStatusType.running,
                  memberStatus :=
                    { name := "bar", status := MemberStatusType.alive,
                      tags := [("role", "node")] },
                  probes := [] } ] },
        summary := "" }).summary = errNoMaster :=
  setSystemStatus_no_master _ (by decide)

/-- Claim C2: if any node in the input has member status failed, the
aggregated system status is degraded, regardless of that node probe status and
of its position in the input. -/
theorem setSystemStatus_failed_member (resp : StatusResponse) (n : NodeStatus)
    (hn : n ∈ resp.status.nodes)
    (hf : n.memberStatus.status = MemberStatusType.failed) :
    (setSystemStatus resp).status.status = SystemStatusType.degraded := by
  have hd := statusLoop_failed_member resp.status.nodes false SystemStatusType.running n hn hf
  simp only [setSystemStatus]
  split
  · exact hd
  · rfl

/-- Witness for C2: a failed master member with the node itself reporting
running drives the verdict to degraded. -/
theorem setSystemStatus_failed_member_witness :
    (setSystemStatus
      { status :=
          { status := SystemStatusType.unknown,
            nodes :=
              [ { name := "foo", status := NodeStatusType.running,
                  memberStatus :=
                    { name := "foo", status := MemberStatusType.alive,
                      tags := [("role", "node")] },
                  probes := [] },
                { name := "bar", status := NodeStatusType.running,
                  memberStatus :=
                    { name := "bar", status := MemberStatusType.failed,
                      tags := [("role", "master")] },
                  probes := [] } ] },
        summary := "" }).status.status = SystemStatusType.degraded :=
  setSystemStatus_failed_member _
    { name := "bar", status := NodeStatusType.running,
      memberStatus :=
        { name := "bar", status := MemberStatusType.failed,
          tags := [("role", "master")] },
      probes := [] }
    (by decide) rfl

/-- Running the loop over a concatenation equals running it over the second
part from the state produced by the first part. -/
theorem statusLoop_append (xs ys : List NodeStatus) (fm : Bool) (st : SystemStatusType) :
    statusLoop (xs ++ ys) fm st
      = statusLoop ys (statusLoop xs fm st).1 (statusLoop xs fm st).2 := by
  induction xs generalizing fm st with
  | nil => rfl
  | cons n rest ih =>
    simp only [List.cons_append, statusLoop]
    exact ih _ _

/-- A prefix of running nodes with members that are not failed leaves the loop
status at running. -/
theorem statusLoop_running_prefix (nodes : List NodeStatus) (fm : Bool)
    (h1 : ∀ n ∈ nodes, n.status = NodeStatusType.running)
    (h2 : ∀ n ∈ nodes, n.memberStatus.status ≠ MemberStatusType.failed) :
    (statusLoop nodes fm SystemStatusType.running).2 = SystemStatusType.running := by
  induction nodes generalizing fm with
  | nil => rfl
  | cons n rest ih =>
    have hs := h1 n (List.mem_cons_self n rest)
    have hm := h2 n (List.mem_cons_self n rest)
    simp only [statusLoop, hs, hm, nodeToSystemStatus, if_pos rfl, if_neg hm]
    exact ih _ (fun x hx => h1 x (List.mem_cons_of_mem n hx))
      (fun x hx => h2 x (List.mem_cons_of_mem n hx))

/-- A node that reports unknown with a live non-master member. -/
def unknownNode : NodeStatus :=
  { name := "foo", status := NodeStatusType.unknown,
    memberStatus :=
      { name := "foo", status := MemberStatusType.alive, tags := [("role", "node")] },
    probes := [] }

/-- A node that reports degraded with a live master member. -/
def degradedMasterNode : NodeStatus :=
  { name := "bar", status := NodeStatusType.degraded,
    memberStatus :=
      { name := "bar", status := MemberStatusType.alive, tags := [("role", "master")] },
    probes := [] }

/-- Claim C3 counterexample: an input that contains a degraded node, has a
master present and no failed members, yet aggregates to unknown rather than
degraded, because the unknown node precedes the degraded one in the input. -/
theorem setSystemStatus_degraded_dominated_cex :
    (setSystemStatus
      { status :=
          { status := SystemStatusType.unknown,
            nodes := [unknownNode, degradedMasterNode] },
        summary := "" }).status.status = SystemStatusType.unknown ∧
    (setSystemStatus
      { status :=
          { status := SystemStatusType.unknown,
            nodes := [unknownNode, degradedMasterNode] },
        summary := "" }).status.status ≠ SystemStatusType.degraded := by decide

/-- Claim C3 (amended): once the loop status has become degraded, later nodes,
running ones included, never change it; and for every input with a master
present, no failed members, at least one node reporting degraded and only
running nodes before the first degraded one, the aggregated system status is
degraded, never unknown. -/
theorem setSystemStatus_degraded_monotone :
    (∀ (nodes : List NodeStatus) (fm : Bool),
      (statusLoop nodes fm SystemStatusType.degraded).2 = SystemStatusType.degraded) ∧
    (∀ (resp : StatusResponse) (pre : List NodeStatus) (d : NodeStatus)
        (rest : List NodeStatus),
      resp.status.nodes = pre ++ d :: rest →
      d.status = NodeStatusType.degraded →
      (∀ n ∈ pre, n.status = NodeStatusType.running) →
      (∀ n ∈ resp.status.nodes, n.memberStatus.status ≠ MemberStatusType.failed) →
      (∃ n ∈ resp.status.nodes, isMaster n.memberStatus = true) →
      (setSystemStatus resp).status.status = SystemStatusType.degraded) := by
  constructor
  · exact fun nodes fm => statusLoop_degraded nodes fm
  · intro resp pre d rest hsplit hd hpre hnf _hm
    have hpre2 : ∀ n ∈ pre, n.memberStatus.status ≠ MemberStatusType.failed := by
      intro n hn
      exact hnf n (by rw [hsplit]; exact List.mem_append_left _ hn)
    have hdm : d.memberStatus.status ≠ MemberStatusType.failed := by
      exact hnf d (by rw [hsplit]; simp)
    have hr : (statusLoop resp.status.nodes false SystemStatusType.running).2
        = SystemStatusType.degraded := by
      rw [hsplit, statusLoop_append, statusLoop_running_prefix pre _ hpre hpre2]
      simp [statusLoop, hd, hdm, nodeToSystemStatus, statusLoop_degraded]
    simp only [setSystemStatus]
    split
    · exact hr
    · rfl

/-- A live master node that reports running, used as the prefix in the witness. -/
def runningMasterNode : NodeStatus :=
  { name := "m", status := NodeStatusType.running,
    memberStatus :=
      { name := "m", status := MemberStatusType.alive, tags := [("role", "master")] },
    probes := [] }

/-- A degraded node with a live non-master member, used in the witness. -/
def degradedNode : NodeStatus :=
  { name := "d", status := NodeStatusType.degraded,
    memberStatus :=
      { name := "d", status := MemberStatusType.alive, tags := [("role", "node")] },
    probes := [] }

/-- Witness for the amended C3: a running master followed by a degraded node
aggregates to degraded. -/
theorem setSystemStatus_degraded_monotone_witness :
    (setSystemStatus
      { status :=
          { status := SystemStatusType.unknown,
            nodes := [runningMasterNode, degradedNode] },
        summary := "" }).status.status = SystemStatusType.degraded :=
  setSystemStatus_degraded_monotone.2
    { status :=
        { status := SystemStatusType.unknown,
          nodes := [runningMasterNode, degradedNode] },
      summary := "" }
    [runningMasterNode] degradedNode [] rfl rfl (by decide) (by decide)
    ⟨runningMasterNode, by decide⟩

/-- The live master of spec scenario 5, reporting running. -/
def masterRunningNode : NodeStatus :=
  { name := "master", status := NodeStatusType.running,
    memberStatus :=
      { name := "master", status := MemberStatusType.alive, tags := [("role", "master")] },
    probes := [] }

/-- The placeholder of spec scenario 5 for an unreachable peer: status
unknown, with a live member entry. -/
def placeholderNode : NodeStatus :=
  { name := "node", status := NodeStatusType.unknown,
    memberStatus :=
      { name := "node", status := MemberStatusType.alive, tags := [("role", "node")] },
    probes := [] }

/-- Claim C4 counterexample: for the literal input of spec scenario 5, a live
running master plus an unknown placeholder with a live member entry, the
aggregated verdict is unknown, not degraded. -/
theorem setSystemStatus_placeholder_cex :
    (setSystemStatus
      { status :=
          { status := SystemStatusType.unknown,
            nodes := [masterRunningNode, placeholderNode] },
        summary := "" }).status.status = SystemStatusType.unknown ∧
    (setSystemStatus
      { status :=
          { status := SystemStatusType.unknown,
            nodes := [masterRunningNode, placeholderNode] },
        summary := "" }).status.status ≠ SystemStatusType.degraded := by decide

/-- Claim C4 (amended): if the aggregator input consists of an alive master
node with status running together with a placeholder node with status unknown
and an alive member entry, in either order, the returned system verdict is
unknown: unknown dominates running, but the verdict is not degraded. -/
theorem setSystemStatus_unknown_dominates_running (m p : NodeStatus)
    (resp : StatusResponse)
    (hm1 : isMaster m.memberStatus = true)
    (hm2 : m.status = NodeStatusType.running)
    (hm3 : m.memberStatus.status = MemberStatusType.alive)
    (hp1 : p.status = NodeStatusType.unknown)
    (hp2 : p.memberStatus.status = MemberStatusType.alive)
    (hn : resp.status.nodes = [m, p] ∨ resp.status.nodes = [p, m]) :
    (setSystemStatus resp).status.status = SystemStatusType.unknown := by
  have hmf : m.memberStatus.status ≠ MemberStatusType.failed := by
    rw [hm3]; intro hc; cases hc
  have hpf : p.memberStatus.status ≠ MemberStatusType.failed := by
    rw [hp2]; intro hc; cases hc
  have hr1 : (statusLoop resp.status.nodes false SystemStatusType.running).1 = true := by
    rw [statusLoop_foundMaster]
    rcases hn with h | h <;> rw [h] <;> simp [hm1]
  have hr2 : (statusLoop resp.status.nodes false SystemStatusType.running).2
      = SystemStatusType.unknown := by
    rcases hn with h | h <;> rw [h] <;>
      simp [statusLoop, hm1, hm2, hp1, hmf, hpf, nodeToSystemStatus]
  simp [setSystemStatus, hr1, hr2]

/-- Witness for the amended C4: the placeholder listed before the master still
yields the unknown verdict. -/
theorem setSystemStatus_unknown_dominates_running_witness :
    (setSystemStatus
      { status :=
          { status := SystemStatusType.unknown,
            nodes := [placeholderNode, masterRunningNode] },
        summary := "" }).status.status = SystemStatusType.unknown :=
  setSystemStatus_unknown_dominates_running masterRunningNode placeholderNode
    { status :=
        { status := SystemStatusType.unknown,
          nodes := [placeholderNode, masterRunningNode] },
      summary := "" }
    (by decide) (by decide) (by decide) (by decide) (by decide) (Or.inr rfl)

/-- UpdateNode of the in-memory cache: walk the Nodes slice, replace the first
entry with a matching name and stop, append a copy when no entry matches.
Clone is a deep copy, which in this pure model is the value itself. -/
def cacheUpdateNode (status : NodeStatus) : List NodeStatus → List NodeStatus
  | [] => [status]
  | node :: rest =>
    if node.name = status.name then status :: rest
    else node :: cacheUpdateNode status rest

/-- The list of names after a cache update: unchanged when the name was
already present, the new name appended otherwise. -/
theorem cacheUpdateNode_names (status : NodeStatus) (nodes : List NodeStatus) :
    (cacheUpdateNode status nodes).map NodeStatus.name
      = if status.name ∈ nodes.map NodeStatus.name then nodes.map NodeStatus.name
        else nodes.map NodeStatus.name ++ [status.name] := by
  induction nodes with
  | nil => simp [cacheUpdateNode]
  | cons n rest ih =>
    by_cases h : n.name = status.name
    · simp [cacheUpdateNode, h]
    · have h2 : status.name ≠ n.name := fun hc => h hc.symm
      simp only [cacheUpdateNode, if_neg h, List.map_cons, ih, List.mem_cons]
      by_cases hmem : status.name ∈ rest.map NodeStatus.name
      · simp [hmem, h2]
      · simp [hmem, h2]

/-- Updating the cache twice with the same status is the same as updating once. -/
theorem cacheUpdateNode_idem (status : NodeStatus) (nodes : List NodeStatus) :
    cacheUpdateNode status (cacheUpdateNode status nodes)
      = cacheUpdateNode status nodes := by
  induction nodes with
  | nil => simp [cacheUpdateNode]
  | cons n rest ih =>
    by_cases h : n.name = status.name
    · simp [cacheUpdateNode, h]
    · simp [cacheUpdateNode, h, ih]

/-- Claim C8: every successful cache UpdateNode leaves exactly one entry per
name, preserving insertion order, appending only on first sight of a new name
and replacing in place afterwards; and updating twice with the same NodeStatus
leaves the cache contents and the count of node slots the same as updating
once. -/
theorem cacheUpdateNode_spec (status : NodeStatus) (nodes : List NodeStatus)
    (h : (nodes.map NodeStatus.name).Nodup) :
    ((cacheUpdateNode status nodes).map NodeStatus.name
      = if status.name ∈ nodes.map NodeStatus.name then nodes.map NodeStatus.name
        else nodes.map NodeStatus.name ++ [status.name]) ∧
    ((cacheUpdateNode status nodes).map NodeStatus.name).Nodup ∧
    cacheUpdateNode status (cacheUpdateNode status nodes)
      = cacheUpdateNode status nodes ∧
    (cacheUpdateNode status (cacheUpdateNode status nodes)).length
      = (cacheUpdateNode status nodes).length := by
  refine ⟨cacheUpdateNode_names status nodes, ?_, cacheUpdateNode_idem status nodes,
    by rw [cacheUpdateNode_idem]⟩
  rw [cacheUpdateNode_names]
  by_cases hmem : status.name ∈ nodes.map NodeStatus.name
  · simpa [hmem] using h
  · simp only [if_neg hmem]
    refine List.Nodup.append h (List.nodup_singleton _) ?_
    intro x hx hx2
    rw [List.mem_singleton] at hx2
    exact hmem (hx2 ▸ hx)

/-- A cached entry for node one, used by the cache witness. -/
def cachedNodeOne : NodeStatus :=
  { name := "one", status := NodeStatusType.running,
    memberStatus :=
      { name := "one", status := MemberStatusType.alive, tags := [("role", "master")] },
    probes := [] }

/-- A fresh status for node two, used by the cache witness. -/
def cachedNodeTwo : NodeStatus :=
  { name := "two", status := NodeStatusType.degraded,
    memberStatus :=
      { name := "two", status := MemberStatusType.alive, tags := [("role", "node")] },
    probes := [] }

/-- Witness for C8: updating a one-entry cache with a status for a new name
appends it, and a second identical update changes nothing. -/
theorem cacheUpdateNode_spec_witness :
    ((cacheUpdateNode cachedNodeTwo [cachedNodeOne]).map NodeStatus.name
      = if cachedNodeTwo.name ∈ [cachedNodeOne].map NodeStatus.name
        then [cachedNodeOne].map NodeStatus.name
        else [cachedNodeOne].map NodeStatus.name ++ [cachedNodeTwo.name]) ∧
    ((cacheUpdateNode cachedNodeTwo [cachedNodeOne]).map NodeStatus.name).Nodup ∧
    cacheUpdateNode cachedNodeTwo (cacheUpdateNode cachedNodeTwo [cachedNodeOne])
      = cacheUpdateNode cachedNodeTwo [cachedNodeOne] ∧
    (cacheUpdateNode cachedNodeTwo (cacheUpdateNode cachedNodeTwo [cachedNodeOne])).length
      = (cacheUpdateNode cachedNodeTwo [cachedNodeOne]).length :=
  cacheUpdateNode_spec cachedNodeTwo [cachedNodeOne] (by decide)

/-- Modelled from the spec: probe status enum of the store generation of the
protocol (ServiceStatusType in the sqlite backend sources); the generated
protobuf file is absent, the value set {unknown, running, failed, terminated}
is from spec section 3. -/
inductive ServiceStatusType
  | serviceUnknown
  | serviceRunning
  | serviceFailed
  | serviceTerminated
  deriving DecidableEq, Repr, Fintype

/-- Probe message of the store generation of the protocol. The captured_at
timestamp is modelled as an abstract instant whose text encoding preserves
order. -/
structure StoreProbe where
  checker : String
  extra : String
  status : ServiceStatusType
  error : String
  capturedAt : Nat
  deriving DecidableEq, Repr

/-- NodeStatus message as consumed by the sqlite backend UpdateNode. -/
structure StoreNodeStatus where
  name : String
  probes : List StoreProbe
  deriving DecidableEq, Repr

/-- protoToStatus from the sqlite backend: the one-letter code of the status
column; failed and every other unlisted value encode as F. -/
def protoToStatus : ServiceStatusType → String
  | ServiceStatusType.serviceRunning => "H"
  | ServiceStatusType.serviceTerminated => "T"
  | _ => "F"

/-- The toProto method of serviceStatus in the sqlite backend; F and every
other unlisted code decode as failed. -/
def statusToProto : String → ServiceStatusType
  | "H" => ServiceStatusType.serviceRunning
  | "T" => ServiceStatusType.serviceTerminated
  | _ => ServiceStatusType.serviceFailed

/-- A row of the node table. -/
structure NodeRow where
  id : Nat
  name : String
  deriving DecidableEq, Repr

/-- A row of the probe table, together with its implicit sqlite rowid. -/
structure ProbeRow where
  rowid : Nat
  node : Nat
  checker : String
  extra : String
  status : String
  error : String
  capturedAt : Nat
  deriving DecidableEq, Repr

/-- The sqlite database: the two tables plus the rowid counters and the
last-insert-rowid register of the connection. The model follows sqlite
semantics on a single connection, which is the situation of the in-memory
store and of the sequential agent writes: last-insert-rowid is updated by
every successful INSERT into any table and left untouched when INSERT OR
IGNORE ignores the row. -/
structure Db where
  nodes : List NodeRow
  probes : List ProbeRow
  nextNodeId : Nat
  nextProbeRowid : Nat
  lastInsertRowid : Nat
  deriving DecidableEq, Repr

/-- A freshly created database. -/
def Db.empty : Db :=
  { nodes := [], probes := [], nextNodeId := 1, nextProbeRowid := 1,
    lastInsertRowid := 0 }

/-- INSERT OR IGNORE INTO node(name) VALUES(?): inserts a fresh row unless the
unique name already exists; only an actual insert moves last-insert-rowid. -/
def insertOrIgnoreNode (name : String) (db : Db) : Db :=
  if db.nodes.any fun n => n.name == name then db
  else
    { db with
        nodes := db.nodes ++ [{ id := db.nextNodeId, name := name }],
        nextNodeId := db.nextNodeId + 1,
        lastInsertRowid := db.nextNodeId }

/-- SELECT id FROM node WHERE name=?. -/
def selectNodeId (name : String) (db : Db) : Option Nat :=
  (db.nodes.find? fun n => n.name == name).map NodeRow.id

/-- upsertNode from the sqlite backend: issue the OR IGNORE insert, take the
LastInsertId of its result, and only fall back to the SELECT when that id is
zero. On a connection that has inserted before, an ignored insert leaves a
stale nonzero last-insert-rowid, which this function then returns as the node
id. -/
def upsertNode (name : String) (db : Db) : Db × Nat :=
  let db1 := insertOrIgnoreNode name db
  let id := db1.lastInsertRowid
  if id = 0 then
    match selectNodeId name db1 with
    | some i => (db1, i)
    | Option.none => (db1, 0)
  else (db1, id)

/-- INSERT INTO probe(node, checker, extra, status, error, captured_at). -/
def insertProbe (nodeId : Nat) (p : StoreProbe) (db : Db) : Db :=
  { db with
      probes := db.probes ++
        [{ rowid := db.nextProbeRowid, node := nodeId, checker := p.checker,
           extra := p.extra, status := protoToStatus p.status, error := p.error,
           capturedAt := p.capturedAt }],
      nextProbeRowid := db.nextProbeRowid + 1,
      lastInsertRowid := db.nextProbeRowid }

/-- addStatus from the sqlite backend: insert one probe row per probe of the
status, in order. -/
def addStatus (nodeId : Nat) (probes : List StoreProbe) (db : Db) : Db :=
  probes.foldl (fun d p => insertProbe nodeId p d) db

/-- UpdateNode from the sqlite backend, error-free execution: upsert the node
by name, then append the probe rows under the id the upsert returned. -/
def updateNode (status : StoreNodeStatus) (db : Db) : Db :=
  let r := upsertNode status.name db
  addStatus r.2 status.probes r.1

/-- The WHERE clause of the RecentStatus query: the probe row joins a node row
carrying the requested name. -/
def nodeMatches (node : String) (db : Db) (p : ProbeRow) : Bool :=
  db.nodes.any fun n => p.node == n.id && n.name == node

/-- Newest-first comparison on probe rows: ORDER BY captured_at DESC. -/
def probeDesc (a b : ProbeRow) : Prop := b.capturedAt ≤ a.capturedAt

instance : DecidableRel probeDesc := fun _ _ => Nat.decLe _ _

instance : IsTotal ProbeRow probeDesc := ⟨fun a b => Nat.le_total b.capturedAt a.capturedAt⟩

instance : IsTrans ProbeRow probeDesc := ⟨fun _ _ _ hab hbc => Nat.le_trans hbc hab⟩

/-- The row set of the RecentStatus query: probe rows of the named node,
ordered by captured_at descending, limited to 5. -/
def recentStatusRows (node : String) (db : Db) : List ProbeRow :=
  ((db.probes.filter (nodeMatches node db)).insertionSort probeDesc).take 5

/-- The probe message scanned back from a selected row. -/
structure ProbeOut where
  checker : String
  extra : String
  status : ServiceStatusType
  error : String
  capturedAt : Nat
  deriving DecidableEq, Repr

/-- Scanning one row of the RecentStatus result into a probe message. -/
def rowToProbe (p : ProbeRow) : ProbeOut :=
  { checker := p.checker, extra := p.extra, status := statusToProto p.status,
    error := p.error, capturedAt := p.capturedAt }

/-- RecentStatus from the sqlite backend. -/
def recentStatus (node : String) (db : Db) : List ProbeOut :=
  (recentStatusRows node db).map rowToProbe

/-- Claim C7: for every node name, RecentStatus returns at most 5 probe rows
belonging to that node, newest first in descending order of captured_at. -/
theorem recentStatus_spec (node : String) (db : Db) :
    (recentStatus node db).length ≤ 5 ∧
    List.Sorted (fun a b : ProbeOut => b.capturedAt ≤ a.capturedAt) (recentStatus node db) ∧
    (∀ q ∈ recentStatus node db, ∃ p ∈ db.probes,
      q = rowToProbe p ∧ ∃ n ∈ db.nodes, p.node = n.id ∧ n.name = node) := by
  refine ⟨?_, ?_, ?_⟩
  · simp only [recentStatus, recentStatusRows, List.length_map]
    exact le_trans (le_of_eq (List.length_take _ _)) (Nat.min_le_left _ _)
  · have hs : List.Sorted probeDesc
        ((db.probes.filter (nodeMatches node db)).insertionSort probeDesc) :=
      List.sorted_insertionSort probeDesc _
    have ht : List.Sorted probeDesc (recentStatusRows node db) :=
      List.Pairwise.sublist (List.take_sublist _ _) hs
    simp only [recentStatus, List.Sorted, List.pairwise_map]
    exact ht.imp fun h => h
  · intro q hq
    simp only [recentStatus, List.mem_map] at hq
    obtain ⟨p, hp, hpq⟩ := hq
    have hp2 : p ∈ (db.probes.filter (nodeMatches node db)).insertionSort probeDesc :=
      List.take_subset _ _ hp
    rw [List.mem_insertionSort] at hp2
    have hp3 := List.mem_filter.mp hp2
    refine ⟨p, hp3.1, hpq.symm, ?_⟩
    have hb := hp3.2
    simp only [nodeMatches, List.any_eq_true] at hb
    obtain ⟨n, hn, hcond⟩ := hb
    rw [Bool.and_eq_true, beq_iff_eq, beq_iff_eq] at hcond
    exact ⟨n, hn, hcond.1, hcond.2⟩

/-- A running probe captured at the given instant, used in the round-trip
scenario. -/
def probeAt (t : Nat) : StoreProbe :=
  { checker := "checker", extra := "", status := ServiceStatusType.serviceRunning,
    error := "", capturedAt := t }

/-- Three successive UpdateNode calls for the same node name on a fresh store,
one probe each. -/
def roundTripDb : Db :=
  updateNode { name := "a", probes := [probeAt 3] }
    (updateNode { name := "a", probes := [probeAt 2] }
      (updateNode { name := "a", probes := [probeAt 1] } Db.empty))

/-- Claim C6, failing run: after writing three probes for node a, the third
UpdateNode resolves the node id from the stale last-insert-rowid left by the
previous probe insert (the OR IGNORE insert was ignored and did not reset it),
stores its probe row under node id 2, and RecentStatus returns only the first
two tuples: the tuple captured at 3 is lost although it is inside the
retention window. -/
theorem updateNode_roundtrip_lost :
    roundTripDb.probes.length = 3 ∧
    (recentStatus "a" roundTripDb).length = 2 ∧
    (∀ q ∈ recentStatus "a" roundTripDb, q.capturedAt ≠ 3) ∧
    (∃ p ∈ roundTripDb.probes, p.capturedAt = 3 ∧
      ∀ n ∈ roundTripDb.nodes, p.node ≠ n.id) := by decide

/-- Execution state for runs where single statements may hit an I/O failure:
the database plus an oracle listing, per statement issued, whether the
underlying I/O fails. A statement that fails leaves the database unchanged;
every statement is issued through r.Exec or r.Get on the shared connection
pool, in autocommit mode. The closure that UpdateNode passes to inTx never
uses the tx it receives, so the transaction that inTx opens contains no
statements and its Rollback on error restores nothing. -/
structure ExecState where
  db : Db
  ioFailures : List Bool
  deriving DecidableEq, Repr

/-- Consume the next entry of the I/O failure oracle. -/
def nextFails (s : ExecState) : Bool × ExecState :=
  match s.ioFailures with
  | [] => (false, s)
  | b :: rest => (b, { s with ioFailures := rest })

/-- The OR IGNORE node insert as a fallible statement. -/
def execInsertOrIgnoreNode (name : String) (s : ExecState) : ExecState × Bool :=
  let r := nextFails s
  if r.1 then (r.2, true)
  else ({ r.2 with db := insertOrIgnoreNode name r.2.db }, false)

/-- The probe insert as a fallible statement. -/
def execInsertProbe (nodeId : Nat) (p : StoreProbe) (s : ExecState) : ExecState × Bool :=
  let r := nextFails s
  if r.1 then (r.2, true)
  else ({ r.2 with db := insertProbe nodeId p r.2.db }, false)

/-- addStatus under the failure oracle: insert probe rows in order, stopping
at the first failed statement. Rows inserted before the failure stay: they
were committed individually on the pooled connection. -/
def addStatusWithFailures (nodeId : Nat) : List StoreProbe → ExecState → ExecState × Bool
  | [], s => (s, false)
  | p :: rest, s =>
    let r := execInsertProbe nodeId p s
    if r.2 then r else addStatusWithFailures nodeId rest r.1

/-- upsertNode under the failure oracle: the OR IGNORE insert, then the SELECT
fallback only when LastInsertId is zero. -/
def upsertNodeWithFailures (name : String) (s : ExecState) : ExecState × Nat × Bool :=
  let r := execInsertOrIgnoreNode name s
  if r.2 then (r.1, 0, true)
  else
    let id := r.1.db.lastInsertRowid
    if id = 0 then
      let g := nextFails r.1
      if g.1 then (g.2, 0, true)
      else
        match selectNodeId name g.2.db with
        | some i => (g.2, i, false)
        | Option.none => (g.2, 0, true)
    else (r.1, id, false)

/-- UpdateNode under the failure oracle, wrapped in inTx as in the source: the
closure issues its statements through r, not through tx, so on error the rows
already inserted persist and only the empty transaction is rolled back. -/
def updateNodeWithFailures (status : StoreNodeStatus) (s : ExecState) : ExecState × Bool :=
  let r := upsertNodeWithFailures status.name s
  if r.2.2 then (r.1, true)
  else addStatusWithFailures r.2.1 status.probes r.1

/-- Claim C5, failing run: UpdateNode for a status with two probes, where the
I/O layer fails the second probe insert. The call reports the error, yet the
first probe row persists in the store: the statements ran outside the
transaction inTx opened, so the rollback had nothing to undo and the store is
not unchanged on error. -/
theorem updateNode_not_atomic :
    (updateNodeWithFailures { name := "a", probes := [probeAt 1, probeAt 2] }
      { db := Db.empty, ioFailures := [false, false, true] }).2 = true ∧
    (updateNodeWithFailures { name := "a", probes := [probeAt 1, probeAt 2] }
      { db := Db.empty, ioFailures := [false, false, true] }).1.db.probes.length = 1 ∧
    (updateNodeWithFailures { name := "a", probes := [probeAt 1, probeAt 2] }
      { db := Db.empty, ioFailures := [false, false, true] }).1.db ≠ Db.empty := by decide

/-- scavengeTimeout from the sqlite backend, 24 hours, here in seconds. -/
def scavengeTimeout : Nat := 24 * 60 * 60

/-- DELETE FROM probe WHERE captured_at < ?. -/
def deleteOlderThan (limit : Nat) (db : Db) : Db :=
  { db with probes := db.probes.filter fun p => limit ≤ p.capturedAt }

/-- One event received by the scavenge loop select: either the 24h timer fires
at the given instant, or the done channel closed by Close becomes readable. -/
inductive ScavengeEvent
  | tick (now : Nat)
  | done
  deriving DecidableEq, Repr

/-- scavengeLoop from the sqlite backend with the done channel, driven by the
sequence of events its select statement receives: a timer tick deletes the
rows older than the retention window, the done event makes the loop return. -/
def scavengeLoop : List ScavengeEvent → Db → Db
  | [], db => db
  | ScavengeEvent.done :: _, db => db
  | ScavengeEvent.tick now :: rest, db =>
    scavengeLoop rest (deleteOlderThan (now - scavengeTimeout) db)

/-- Claim C9: after Close closes the done channel the eviction loop returns:
whatever events follow the done event, they cause no further deletions, and
the resulting store is exactly the store at the moment the done event was
received. -/
theorem scavengeLoop_stops_after_done (pre post : List ScavengeEvent) (db : Db) :
    scavengeLoop (pre ++ ScavengeEvent.done :: post) db = scavengeLoop pre db := by
  induction pre generalizing db with
  | nil => rfl
  | cons e rest ih => cases e <;> simp [scavengeLoop, ih]

/-- MarshalText of SystemStatus_Type from status.go; the default case returns
a nil byte slice, modelled as none. -/
def systemStatusMarshalText : SystemStatusType → Option String
  | SystemStatusType.running => some "running"
  | SystemStatusType.degraded => some "degraded"
  | _ => Option.none

/-- UnmarshalText of SystemStatus_Type from status.go; Go converts a nil byte
slice to the empty string before the switch, so marshalled none unmarshals as
the empty string. -/
def systemStatusUnmarshalText (text : String) : SystemStatusType :=
  match text with
  | "running" => SystemStatusType.running
  | "degraded" => SystemStatusType.degraded
  | _ => SystemStatusType.unknown

/-- MarshalText of NodeStatus_Type from status.go; the running value encodes
as healthy for backwards compatibility. -/
def nodeStatusMarshalText : NodeStatusType → Option String
  | NodeStatusType.running => some "healthy"
  | NodeStatusType.degraded => some "degraded"
  | _ => Option.none

/-- UnmarshalText of NodeStatus_Type from status.go. -/
def nodeStatusUnmarshalText (text : String) : NodeStatusType :=
  match text with
  | "healthy" => NodeStatusType.running
  | "degraded" => NodeStatusType.degraded
  | _ => NodeStatusType.unknown

/-- MarshalText of Probe_Type from status.go; the running value encodes as
healthy for backwards compatibility. -/
def probeMarshalText : ProbeType → Option String
  | ProbeType.running => some "healthy"
  | ProbeType.failed => some "failed"
  | ProbeType.terminated => some "terminated"
  | _ => Option.none

/-- UnmarshalText of Probe_Type from status.go. -/
def probeUnmarshalText (text : String) : ProbeType :=
  match text with
  | "healthy" => ProbeType.running
  | "failed" => ProbeType.failed
  | "terminated" => ProbeType.terminated
  | _ => ProbeType.unknown

/-- MarshalText of MemberStatus_Type from status.go: the none case falls
through the switch to the final nil return; the default case, which would
return the text none, is unreachable for the defined values modelled here. -/
def memberStatusMarshalText : MemberStatusType → Option String
  | MemberStatusType.alive => some "alive"
  | MemberStatusType.leaving => some "leaving"
  | MemberStatusType.left => some "left"
  | MemberStatusType.failed => some "failed"
  | MemberStatusType.none => Option.none

/-- UnmarshalText of MemberStatus_Type from status.go. -/
def memberStatusUnmarshalText (text : String) : MemberStatusType :=
  match text with
  | "alive" => MemberStatusType.alive
  | "leaving" => MemberStatusType.leaving
  | "left" => MemberStatusType.left
  | "failed" => MemberStatusType.failed
  | _ => MemberStatusType.none

/-- Claim C10: for every defined value of the four status enums, MarshalText
followed by UnmarshalText returns the original value; NodeStatus running and
Probe running marshal to the text healthy, and the unknown and none values
marshal to empty text. -/
theorem status_text_roundtrip :
    (∀ s : SystemStatusType,
      systemStatusUnmarshalText ((systemStatusMarshalText s).getD "") = s) ∧
    (∀ s : NodeStatusType,
      nodeStatusUnmarshalText ((nodeStatusMarshalText s).getD "") = s) ∧
    (∀ s : ProbeType,
      probeUnmarshalText ((probeMarshalText s).getD "") = s) ∧
    (∀ s : MemberStatusType,
      memberStatusUnmarshalText ((memberStatusMarshalText s).getD "") = s) ∧
    nodeStatusMarshalText NodeStatusType.running = some "healthy" ∧
    probeMarshalText ProbeType.running = some "healthy" ∧
    systemStatusMarshalText SystemStatusType.unknown = Option.none ∧
    nodeStatusMarshalText NodeStatusType.unknown = Option.none ∧
    probeMarshalText ProbeType.unknown = Option.none ∧
    memberStatusMarshalText MemberStatusType.none = Option.none := by decide

end Planet
